import Mathlib

/-!
Shallow embedding of the battery-data acquisition core of BatteryPy
(src/batterypy/_batterypy.py) and verification of the frozen claims.

Python semantics conventions used throughout:
* Python `int` is unbounded, modelled by `Int` (or `Nat` for `c_ulong` fields).
* Python floats are modelled by exact rationals `ℚ`; `round(x, n)` uses
  round-half-to-even, as Python's `round` does.
* Python floor division `//` is `Int.fdiv` (floor semantics, also on
  negative operands); `int(x)` on a non-negative real is `Nat` division.
* `Optional[T]` is `Option T`; a raised exception is `Except.error`.
-/

namespace BatteryPy

/-- The Python exception kinds that the embedded code can raise. -/
inductive PyError where
  | attributeError (name : String)
  | unicodeDecodeError
  | timeoutError
  | batteryPyException
  deriving DecidableEq, Repr

/-! ## Python string primitives -/

/-- Python's whitespace class for `str.strip` / `str.split` (Unicode
whitespace; the characters listed are the ones Python treats as space). -/
def isPySpace (c : Char) : Bool :=
  c = ' ' ∨ c = '\t' ∨ c = '\n' ∨ c = '\r' ∨ c = '\x0b' ∨ c = '\x0c' ∨
  c.toNat = 0x1c ∨ c.toNat = 0x1d ∨ c.toNat = 0x1e ∨ c.toNat = 0x1f ∨
  c.toNat = 0x85 ∨ c.toNat = 0xa0 ∨ c.toNat = 0x1680 ∨
  (0x2000 ≤ c.toNat ∧ c.toNat ≤ 0x200a) ∨
  c.toNat = 0x2028 ∨ c.toNat = 0x2029 ∨ c.toNat = 0x202f ∨
  c.toNat = 0x205f ∨ c.toNat = 0x3000

/-- Python `str.strip()` on a character list. -/
def pyStrip (l : List Char) : List Char :=
  ((l.dropWhile isPySpace).reverse.dropWhile isPySpace).reverse

/-- Python `str.strip()`. -/
def pyStripS (s : String) : String :=
  String.mk (pyStrip s.toList)

/-- ASCII lowering of one character; Python `str.lower` restricted to the
ASCII range, which covers every string the embedded code compares. -/
def lowerChar (c : Char) : Char :=
  if 'A' ≤ c ∧ c ≤ 'Z' then Char.ofNat (c.toNat + 32) else c

/-- Python `str.lower()` (ASCII range). -/
def pyLower (s : String) : String :=
  String.mk (s.toList.map lowerChar)

/-- Digit run of Python `int(str)`: digits with optional single underscores
between digits (`1_000`); `acc` is the value of the digits already read. -/
def parseDigitsAux : Nat → List Char → Option Nat
  | acc, [] => some acc
  | acc, c :: r =>
    if c.isDigit then parseDigitsAux (acc * 10 + (c.toNat - 48)) r
    else if c = '_' then
      match r with
      | c2 :: r2 =>
        if c2.isDigit then parseDigitsAux (acc * 10 + (c2.toNat - 48)) r2
        else none
      | [] => none
    else none

/-- Nonempty digit run (first character must be a digit). -/
def parseDigits : List Char → Option Nat
  | [] => none
  | c :: r => if c.isDigit then parseDigitsAux (c.toNat - 48) r else none

/-- Python `int(str)`: surrounding whitespace stripped, optional sign,
ASCII digit run (with underscore separators); `none` models `ValueError`. -/
def pyParseInt (s : String) : Option Int :=
  match pyStrip s.toList with
  | '+' :: r => (parseDigits r).map (fun n => (n : Int))
  | '-' :: r => (parseDigits r).map (fun n => -(n : Int))
  | r => (parseDigits r).map (fun n => (n : Int))

/-! ## Python numeric primitives -/

/-- Python `round(x)`: round half to even (banker's rounding). -/
def roundHalfEven (q : ℚ) : ℤ :=
  let f := ⌊q⌋
  let frac := q - (f : ℚ)
  if frac < 1/2 then f
  else if (1:ℚ)/2 < frac then f + 1
  else if f % 2 = 0 then f else f + 1

/-- Python `round(x, 2)` on the rational model of a float. -/
def pyRound2 (q : ℚ) : ℚ :=
  (roundHalfEven (q * 100) : ℚ) / 100

/-! ## Windows live-state reader (`_SYSTEM_BATTERY_STATE`, `Battery` getters)

`_get_battery_state` returns the ctypes structure or `None`; the getters are
modelled as functions of that `Option` value (the 2-second API cache only
decides which concrete state is observed).  The boolean fields are `c_bool`;
`MaxCapacity`/`RemainingCapacity` are `c_ulong` (non-negative).  `Rate` is
the integer obtained by `int(state.Rate)`; it is kept at type `Int` so that
the sign-normalization branches of `charge_rate` stay meaningful. -/

structure SYSTEM_BATTERY_STATE where
  AcOnLine : Bool
  BatteryPresent : Bool
  Charging : Bool
  Discharging : Bool
  MaxCapacity : Nat
  RemainingCapacity : Nat
  Rate : Int
  EstimatedTime : Nat
  deriving DecidableEq, Repr

/-- Windows `Battery.battery_percent`: 0 when the state is unavailable, the
battery absent or `MaxCapacity` zero, else
`min(max(int((Remaining / Max) * 100), 0), 100)`; Python `int()` truncation
on the non-negative quotient is `Nat` division. -/
def batteryPercentWindows (state : Option SYSTEM_BATTERY_STATE) : Nat :=
  match state with
  | none => 0
  | some s =>
    if ¬ s.BatteryPresent ∨ s.MaxCapacity = 0 then 0
    else min (max (s.RemainingCapacity * 100 / s.MaxCapacity) 0) 100

/-- Windows `Battery._is_charging`: requires a state, the `Charging` flag
and the `BatteryPresent` flag. -/
def isChargingWindows (state : Option SYSTEM_BATTERY_STATE) : Bool :=
  match state with
  | none => false
  | some s => s.Charging && s.BatteryPresent

/-- Windows `Battery.charge_rate`: returns 0 unless `_is_charging()`, then
normalizes the sign of `int(state.Rate)` by the `Charging`/`Discharging`
flags exactly as the source's branch chain does. -/
def chargeRateWindows (state : Option SYSTEM_BATTERY_STATE) : Int :=
  if ¬ isChargingWindows state then 0
  else match state with
    | none => 0
    | some s =>
      let rate := s.Rate
      if s.Discharging ∧ 0 < rate then -rate
      else if s.Charging ∧ rate < 0 then |rate|
      else if s.Charging then rate
      else if rate ≠ 0 then -|rate| else 0

/-! ## Windows report source (`_BatteryHtmlReport.get_battery_health_percentage`) -/

/-- `get_battery_health_percentage`: `round((full / design) * 100, 2)` when
both `battery_design_capacity()` and `battery_full_capacity()` are positive,
else `0.0`. -/
def getBatteryHealthPercentage (design full : Int) : ℚ :=
  if 0 < design ∧ 0 < full then pyRound2 ((full : ℚ) / (design : ℚ) * 100)
  else 0

/-! ## Linux sysfs source

A file on disk is either absent/unreadable (`open`/`read` raises one of the
caught `FileNotFoundError`/`PermissionError`/`OSError`), readable text that
decodes as UTF-8, or readable bytes that do not decode (text-mode `read`
with `encoding="utf-8"` then raises `UnicodeDecodeError`, which is a
`ValueError` and is not in the caught exception tuple). -/

inductive RawFile where
  | absent
  | text (s : String)
  | invalid
  deriving DecidableEq, Repr

/-- A filesystem: path (or battery property name) to file outcome. -/
def FS : Type := String → RawFile

/-- Linux `Battery._read_file`: `None` on the caught I/O errors, the
stripped content if it is non-empty, `None` if it strips to empty; a file
that does not decode as UTF-8 raises. -/
def readFile (fs : FS) (path : String) : Except PyError (Option String) :=
  match fs path with
  | RawFile.absent => Except.ok none
  | RawFile.invalid => Except.error PyError.unicodeDecodeError
  | RawFile.text s =>
    let content := pyStripS s
    Except.ok (if content = "" then none else some content)

/-- The Linux `Battery` facade state: whether `_discover_power_supplies`
set `_battery_path`, and the battery directory's property files (keyed by
property name; the source joins `_battery_path` with the name). -/
structure LinuxBattery where
  hasBatteryPath : Bool
  fs : FS

/-- Linux `Battery._read_battery_property`. -/
def readBatteryProperty (b : LinuxBattery) (prop : String) :
    Except PyError (Option String) :=
  if b.hasBatteryPath then readFile b.fs prop else Except.ok none

/-- Linux `Battery._read_battery_int`: `int(value)` with `ValueError`
mapped to `None`. -/
def readBatteryInt (b : LinuxBattery) (prop : String) :
    Except PyError (Option Int) := do
  let v ← readBatteryProperty b prop
  match v with
  | none => pure none
  | some s => pure (pyParseInt s)

/-- Linux `Battery.battery_percent`: the raw parsed `capacity` value,
returned without any clamping. -/
def batteryPercentLinux (b : LinuxBattery) : Except PyError (Option Int) :=
  readBatteryInt b "capacity"

/-- Charge-file fallback of Linux `Battery.battery_health`; the final
`return 0` keeps the metric numeric. -/
def batteryHealthLinuxCharge (b : LinuxBattery) : Except PyError ℚ := do
  let currentFull ← readBatteryInt b "charge_full"
  let designFull ← readBatteryInt b "charge_full_design"
  match currentFull, designFull with
  | some c, some d =>
    if 0 < d then pure (pyRound2 ((c : ℚ) / (d : ℚ) * 100)) else pure 0
  | _, _ => pure 0

/-- Linux `Battery.battery_health`: energy-file ratio first (requires both
reads to parse and `energy_full_design > 0`, with no positivity test on
`energy_full`), then the charge-file fallback, then `0`. -/
def batteryHealthLinux (b : LinuxBattery) : Except PyError ℚ := do
  let currentFull ← readBatteryInt b "energy_full"
  let designFull ← readBatteryInt b "energy_full_design"
  match currentFull, designFull with
  | some c, some d =>
    if 0 < d then pure (pyRound2 ((c : ℚ) / (d : ℚ) * 100))
    else batteryHealthLinuxCharge b
  | _, _ => batteryHealthLinuxCharge b

/-- The status test of `signed_power`: `_status and _status.lower() ==
"discharging"`. -/
def isDischargingStatus (status : Option String) : Bool :=
  match status with
  | some s => s ≠ "" && pyLower s = "discharging"
  | none => false

/-- `signed_power` inside Linux `Battery.charge_rate`:
`abs(value_uw) // 1000`, negated when the status is "discharging". -/
def signedPower (valueUw : Int) (status : Option String) : Int :=
  let mw := Int.fdiv (valueUw.natAbs : Int) 1000
  if isDischargingStatus status then -mw else mw

/-- Linux `Battery.charge_rate`: `signed_power(power_now, status)` when the
`power_now` file parses; else `signed_power(abs(current_now) * voltage_now,
status) // 1000`; else `None`. -/
def chargeRateLinux (b : LinuxBattery) : Except PyError (Option Int) := do
  let status ← readBatteryProperty b "status"
  let powerUw ← readBatteryInt b "power_now"
  match powerUw with
  | some p => pure (some (signedPower p status))
  | none => do
    let currentUa ← readBatteryInt b "current_now"
    let voltageUv ← readBatteryInt b "voltage_now"
    match currentUa, voltageUv with
    | some c, some v =>
      pure (some (Int.fdiv (signedPower ((c.natAbs : Int) * v) status) 1000))
    | _, _ => pure none

/-- Linux `Battery.battery_technology`: the conditional expression reads
the `technology` file once for the comparison with `"Unkown"` and, only in
the else branch, a second time for the value; `None != "Unkown"` is true in
Python, so any content other than `"Unkown"` (including a missing file)
selects the constant. -/
def batteryTechnologyLinux (b : LinuxBattery) : Except PyError String := do
  let t1 ← readBatteryProperty b "technology"
  let technology ←
    if t1 ≠ some "Unkown" then pure (some "Lithium-Ion")
    else readBatteryProperty b "technology"
  match technology with
  | some t => pure t
  | none => pure "Lithium-ion"

/-! ## Formatting helpers of `_BatteryPy` -/

/-- Insert a thousands separator every three digits; the input is the
reversed digit list. -/
def commaRev : List Char → List Char
  | a :: b :: c :: d :: rest => a :: b :: c :: ',' :: commaRev (d :: rest)
  | l => l

/-- Decimal rendering of a `Nat` with thousands separators (`f"{x:,}"`). -/
def natCommas (n : Nat) : String :=
  String.mk ((commaRev (toString n).toList.reverse).reverse)

/-- Python fixed-point float formatting `f"{q:.df}"` (optionally with the
`,` thousands flag): round half to even at `decimals` places, keeping the
sign of the original value (Python prints `-0` for small negatives). -/
def formatFloat (decimals : Nat) (commas : Bool) (q : ℚ) : String :=
  let scaled := roundHalfEven (q * (10 ^ decimals : Nat))
  let m := scaled.natAbs
  let intPart := m / 10 ^ decimals
  let fracPart := m % 10 ^ decimals
  let intStr := if commas then natCommas intPart else toString intPart
  let fracRaw := toString fracPart
  let fracStr := String.mk (List.replicate (decimals - fracRaw.length) '0')
      ++ fracRaw
  (if q < 0 then "-" else "") ++ intStr ++
    (if decimals = 0 then "" else "." ++ fracStr)

/-- `_format_percentage`: `f"{float(p):.0f}%"` or `"n/a"`. -/
def formatPercentage (p : Option Int) : String :=
  match p with
  | none => "n/a"
  | some v => formatFloat 0 false (v : ℚ) ++ "%"

/-- `_format_power_status`. -/
def formatPowerStatus (isPlugged : Option Bool) : String :=
  match isPlugged with
  | none => "n/a"
  | some b => if b then "Plugged In" else "On Battery"

/-- `_format_capacity`: `f"{float(c):,.0f} mWh"` or `"n/a"`. -/
def formatCapacity (c : Option Int) : String :=
  match c with
  | none => "n/a"
  | some v => formatFloat 0 true (v : ℚ) ++ " mWh"

/-- `_format_charge_rate`: `"n/a"`, `"0 mW (Idle)"`, or the absolute rate
with the charging direction. -/
def formatChargeRate (r : Option Int) : String :=
  match r with
  | none => "n/a"
  | some v =>
    if v = 0 then "0 mW (Idle)"
    else
      let direction := if 0 < v then "Charging" else "Discharging"
      formatFloat 0 true (|v| : ℚ) ++ " mW (" ++ direction ++ ")"

/-- `_format_health`: `f"{float(h):.1f}%"` or `"n/a"`. -/
def formatHealth (h : Option ℚ) : String :=
  match h with
  | none => "n/a"
  | some v => formatFloat 1 false v ++ "%"

/-- `_format_voltage`: `f"{float(v):.2f} V"` or `"n/a"`. -/
def formatVoltage (v : Option ℚ) : String :=
  match v with
  | none => "n/a"
  | some x => formatFloat 2 false x ++ " V"

/-- `_format_temperature`: `f"{float(t):.1f}°C"` or `"n/a"`. -/
def formatTemperature (t : Option ℚ) : String :=
  match t with
  | none => "n/a"
  | some x => formatFloat 1 false x ++ "°C"

/-- `_format_boolean`. -/
def formatBoolean (v : Option Bool) : String :=
  match v with
  | none => "n/a"
  | some b => if b then "Yes" else "No"

/-- `_format_string`: `"n/a"` for `None`/empty, else the stripped value or
`"n/a"` if stripping empties it. -/
def formatString (v : Option String) : String :=
  match v with
  | none => "n/a"
  | some s =>
    if s = "" then "n/a"
    else
      let t := pyStripS s
      if t = "" then "n/a" else t

/-- `_format_integer`: `str(int(float(v)))` or `"n/a"`. -/
def formatInteger (v : Option Int) : String :=
  match v with
  | none => "n/a"
  | some x => toString x

/-! ## `get_result` aggregation layer

The twelve abstract getters produce raw values per collection cycle; a
getter run is either a returned `Optional` value, a raised `Exception`
(swallowed by `_safe_execute`), or a raised `TimeoutError` (re-raised by
`_safe_execute`). -/

inductive GetterOutcome (α : Type) where
  | ok (v : Option α)
  | exc
  | timeoutExc

/-- One outcome per getter of the `tasks` table of `_get_result_parallel`
(same order as the source). -/
structure Getters where
  batteryPercent : GetterOutcome Int
  isPlugged : GetterOutcome Bool
  designCapacity : GetterOutcome Int
  remainingCapacity : GetterOutcome Int
  chargeRate : GetterOutcome Int
  isFastCharge : GetterOutcome Bool
  manufacturer : GetterOutcome String
  batteryTechnology : GetterOutcome String
  cycleCount : GetterOutcome Int
  batteryHealth : GetterOutcome ℚ
  batteryVoltage : GetterOutcome ℚ
  batteryTemperature : GetterOutcome ℚ

/-- The raw values handed to `_format_result_data`. -/
structure RawData where
  batteryPercent : Option Int
  isPlugged : Option Bool
  designCapacity : Option Int
  remainingCapacity : Option Int
  chargeRate : Option Int
  isFastCharge : Option Bool
  manufacturer : Option String
  batteryTechnology : Option String
  cycleCount : Option Int
  batteryHealth : Option ℚ
  batteryVoltage : Option ℚ
  batteryTemperature : Option ℚ

/-- `_safe_execute`: exceptions become `None`, `TimeoutError` is
re-raised. -/
def safeExecute {α : Type} : GetterOutcome α → Except PyError (Option α)
  | GetterOutcome.ok v => Except.ok v
  | GetterOutcome.exc => Except.ok none
  | GetterOutcome.timeoutExc => Except.error PyError.timeoutError

/-- The value a getter contributes in parallel mode: the collection loop of
`_get_result_parallel` turns every per-future exception or timeout into
`None`. -/
def parallelValue {α : Type} : GetterOutcome α → Option α
  | GetterOutcome.ok v => v
  | GetterOutcome.exc => none
  | GetterOutcome.timeoutExc => none

/-- `_format_result_data`: the formatted mapping, in the key order of the
source dict literal, closed by the `report_generated` date. -/
def formatResultData (raw : RawData) (today : String) :
    List (String × String) :=
  [("battery_percent", formatPercentage raw.batteryPercent),
   ("power_status", formatPowerStatus raw.isPlugged),
   ("design_capacity", formatCapacity raw.designCapacity),
   ("remaining_capacity", formatCapacity raw.remainingCapacity),
   ("charge_rate", formatChargeRate raw.chargeRate),
   ("fast_charge", formatBoolean raw.isFastCharge),
   ("manufacturer", formatString raw.manufacturer),
   ("technology", formatString raw.batteryTechnology),
   ("cycle_count", formatInteger raw.cycleCount),
   ("battery_health", formatHealth raw.batteryHealth),
   ("battery_voltage", formatVoltage raw.batteryVoltage),
   ("battery_temperature", formatTemperature raw.batteryTemperature),
   ("report_generated", today)]

/-- `_get_fallback_result`, transcribed key for key: its first key is
`battery_percentage`, not `battery_percent`. -/
def getFallbackResult (today : String) : List (String × String) :=
  [("battery_percentage", "n/a"), ("power_status", "n/a"),
   ("design_capacity", "n/a"), ("remaining_capacity", "n/a"),
   ("charge_rate", "n/a"), ("fast_charge", "n/a"),
   ("manufacturer", "n/a"), ("technology", "n/a"),
   ("cycle_count", "n/a"), ("battery_health", "n/a"),
   ("battery_voltage", "n/a"), ("battery_temperature", "n/a"),
   ("report_generated", today)]

/-- `_get_result_sequential`: `_safe_execute` each getter in the source's
order (the first re-raised `TimeoutError` aborts the comprehension), then
format. -/
def getResultSequential (g : Getters) (today : String) :
    Except PyError (List (String × String)) := do
  let bp ← safeExecute g.batteryPercent
  let ip ← safeExecute g.isPlugged
  let dc ← safeExecute g.designCapacity
  let rc ← safeExecute g.remainingCapacity
  let cr ← safeExecute g.chargeRate
  let fc ← safeExecute g.isFastCharge
  let mf ← safeExecute g.manufacturer
  let bt ← safeExecute g.batteryTechnology
  let cc ← safeExecute g.cycleCount
  let bh ← safeExecute g.batteryHealth
  let bv ← safeExecute g.batteryVoltage
  let bte ← safeExecute g.batteryTemperature
  pure (formatResultData ⟨bp, ip, dc, rc, cr, fc, mf, bt, cc, bh, bv, bte⟩ today)

/-- `_get_result_parallel`: every failed or timed-out future contributes
`None`; the formatted mapping is always produced. -/
def getResultParallel (g : Getters) (today : String) :
    List (String × String) :=
  formatResultData
    ⟨parallelValue g.batteryPercent, parallelValue g.isPlugged,
     parallelValue g.designCapacity, parallelValue g.remainingCapacity,
     parallelValue g.chargeRate, parallelValue g.isFastCharge,
     parallelValue g.manufacturer, parallelValue g.batteryTechnology,
     parallelValue g.cycleCount, parallelValue g.batteryHealth,
     parallelValue g.batteryVoltage, parallelValue g.batteryTemperature⟩
    today

/-- The cache fields of `get_result`: `_cached_result` and whether
`current_time - _last_cache_time < _cache_ttl` currently holds. -/
structure AggState where
  cachedResult : Option (List (String × String))
  cacheValid : Bool

/-- Python truthiness of `self._cached_result` (None and the empty dict
are falsy). -/
def cachedTruthy (st : AggState) : Bool :=
  match st.cachedResult with
  | some c => c ≠ []
  | none => false

/-- `get_result(use_cache, parallel)`: serve a valid cache hit, otherwise
collect; on an escaped exception re-raise as `BatteryPyException` in dev
mode, else fall back to the stale cache or to `_get_fallback_result`. -/
def getResult (useCache parallel devMode : Bool) (st : AggState)
    (g : Getters) (today : String) :
    Except PyError (List (String × String)) :=
  if useCache ∧ cachedTruthy st ∧ st.cacheValid then
    Except.ok (st.cachedResult.getD [])
  else
    match (if parallel then Except.ok (getResultParallel g today)
           else getResultSequential g today) with
    | Except.ok data => Except.ok data
    | Except.error _ =>
      if devMode then Except.error PyError.batteryPyException
      else if cachedTruthy st then Except.ok (st.cachedResult.getD [])
      else Except.ok (getFallbackResult today)

/-! ## `clear_cache` (C9)

`clear_cache` mutates the instance, then calls `.cache_clear()` on
`self._estimate_battery_voltage` and on `self._is_battery_present`; the
latter name is defined nowhere in the class hierarchy, so the attribute
lookup raises `AttributeError`.  Attribute lookup is modelled by membership
in the list of names the class hierarchy defines, transcribed from the
source. -/

/-- Names defined on `_BatteryPy` instances (`__init__` assignments,
methods and the lazily set `_voltage_cache`). -/
def batteryPyBaseAttrs : List String :=
  ["_report_path", "_dev_mode", "_timeout", "_cache_ttl",
   "_last_cache_time", "_cached_result", "_voltage_cache",
   "_has_battery", "battery_percent", "is_plugged", "remaining_capacity",
   "design_capacity", "charge_rate", "is_fast_charge", "manufacturer",
   "battery_technology", "cycle_count", "battery_health",
   "battery_voltage", "battery_temperature", "get_result",
   "_get_result_parallel", "_safe_execute", "_get_result_sequential",
   "_format_result_data", "_get_fallback_result",
   "_estimate_battery_voltage", "_calculate_voltage_estimate",
   "_get_datetime", "_format_percentage", "_format_power_status",
   "_format_capacity", "_format_charge_rate", "_format_health",
   "_format_voltage", "_format_temperature", "_format_boolean",
   "_format_string", "_format_integer", "clear_cache", "__repr__"]

/-- Additional names defined on the Windows `Battery` class. -/
def windowsBatteryAttrs : List String :=
  batteryPyBaseAttrs ++
  ["_CACHE_DURATION_SECONDS", "_POWER_INFO_BATTERY_STATE",
   "_powershell_cmd_battery", "_last_api_call", "_cached_state",
   "_battery_report", "_kernel32", "_power_prof", "_get_battery_state",
   "full_capacity", "_is_charging", "estimated_time_remaining",
   "_get_voltage_from_registry", "_read_battery_subkey",
   "_get_voltage_via_com", "_get_thermal_zone_temperature",
   "_get_acpi_temperature"]

/-- Additional names defined on the Linux `Battery` class. -/
def linuxBatteryAttrs : List String :=
  batteryPyBaseAttrs ++
  ["_POWER_SUPPLY_PATH", "_BATTERY_PROPERTIES", "_ac_adapter_paths",
   "_battery_path", "_discover_power_supplies", "_read_file",
   "_read_battery_property", "_read_battery_int", "_read_battery_float"]

/-- The cache fields `clear_cache` touches. -/
structure CacheState where
  cachedResult : Option (List (String × String))
  lastCacheTime : ℚ
  voltageCacheSet : Bool

/-- `clear_cache`: reset `_cached_result` and `_last_cache_time`, drop
`_voltage_cache` if set, then look up `_estimate_battery_voltage` and
`_is_battery_present` for their `cache_clear()` calls; a missing name
raises `AttributeError` after the mutations already happened. -/
def clearCache (attrs : List String) (st : CacheState) :
    CacheState × Option PyError :=
  let st1 := { st with cachedResult := none, lastCacheTime := 0 }
  let st2 := if st1.voltageCacheSet then { st1 with voltageCacheSet := false }
             else st1
  if "_estimate_battery_voltage" ∈ attrs then
    if "_is_battery_present" ∈ attrs then (st2, none)
    else (st2, some (PyError.attributeError "_is_battery_present"))
  else (st2, some (PyError.attributeError "_estimate_battery_voltage"))

/-! ## HTML report parsing (`_BatteryHtmlReport._parse_html` and helpers)

The `_SEARCH_PATTERNS` regexes all share one shape:
`LABEL</span>\s*</td>\s*<td[^>]*>(.*?)</td>` with `IGNORECASE | DOTALL`.
In that shape every quantifier is deterministic: `\s*` and `[^>]*` cannot
consume a character of the literal that follows them, and the lazy group
captures up to the first following `</td>`.  `re.search` yields the
leftmost starting position at which the pattern matches. -/

/-- Case-insensitive literal prefix match: the remaining input on
success. -/
def isPrefixCI : List Char → List Char → Option (List Char)
  | [], r => some r
  | _ :: _, [] => none
  | p :: ps, c :: cs =>
    if lowerChar p = lowerChar c then isPrefixCI ps cs else none

/-- Lazy `(.*?)` up to the first case-insensitive occurrence of `lit`:
the shortest captured prefix. -/
def takeUntilCI (lit : List Char) : List Char → Option (List Char)
  | [] => if (isPrefixCI lit []).isSome then some [] else none
  | c :: r =>
    if (isPrefixCI lit (c :: r)).isSome then some []
    else (takeUntilCI lit r).map (fun cap => c :: cap)

/-- Match `LABEL</span>\s*</td>\s*<td[^>]*>(.*?)</td>` at the head of the
input, returning the group-1 capture. -/
def matchFieldAt (label : List Char) (s : List Char) : Option (List Char) :=
  match isPrefixCI (label ++ "</span>".toList) s with
  | none => none
  | some r1 =>
    match isPrefixCI "</td>".toList (r1.dropWhile isPySpace) with
    | none => none
    | some r2 =>
      match isPrefixCI "<td".toList (r2.dropWhile isPySpace) with
      | none => none
      | some r3 =>
        match r3.dropWhile (fun c => c ≠ '>') with
        | '>' :: r4 => takeUntilCI "</td>".toList r4
        | _ => none

/-- `pattern.search`: the capture at the leftmost matching position. -/
def searchField (label : List Char) : List Char → Option (List Char)
  | [] => matchFieldAt label []
  | s@(_ :: rest) =>
    match matchFieldAt label s with
    | some cap => some cap
    | none => searchField label rest

/-- `re.sub(r'<[^>]*>', '', text)` as a one-pass scanner: outside a tag
characters pass through; `<` starts a buffered candidate tag, dropped when
its `>` arrives and emitted verbatim if the input ends first (the regex
cannot match a `<` with no later `>`). -/
def stripTagsAux : Option (List Char) → List Char → List Char
  | none, [] => []
  | some buf, [] => buf.reverse
  | none, c :: r =>
    if c = '<' then stripTagsAux (some [c]) r
    else c :: stripTagsAux none r
  | some buf, c :: r =>
    if c = '>' then stripTagsAux none r
    else stripTagsAux (some (c :: buf)) r

/-- Tag removal of `_normalize_text`. -/
def stripTags (l : List Char) : List Char :=
  stripTagsAux none l

/-- `html.unescape`, modelled for the named and numeric entities that occur
in battery reports (`html.unescape` decodes the full HTML5 table; the
fragment fields only contain these). -/
def decodeEntities : List Char → List Char
  | [] => []
  | '&' :: 'n' :: 'b' :: 's' :: 'p' :: ';' :: r => '\u00A0' :: decodeEntities r
  | '&' :: 'a' :: 'm' :: 'p' :: ';' :: r => '&' :: decodeEntities r
  | '&' :: 'l' :: 't' :: ';' :: r => '<' :: decodeEntities r
  | '&' :: 'g' :: 't' :: ';' :: r => '>' :: decodeEntities r
  | '&' :: 'q' :: 'u' :: 'o' :: 't' :: ';' :: r => '"' :: decodeEntities r
  | '&' :: '#' :: '3' :: '9' :: ';' :: r => '\'' :: decodeEntities r
  | c :: r => c :: decodeEntities r

mutual

/-- `' '.join(text.split())`, head position: skip leading whitespace. -/
def collapseWs : List Char → List Char
  | [] => []
  | c :: r => if isPySpace c then collapseWs r else c :: collapseRest r

/-- `' '.join(text.split())`, inside a word: a whitespace run becomes one
space when another word follows and vanishes at the end. -/
def collapseRest : List Char → List Char
  | [] => []
  | c :: r =>
    if isPySpace c then
      match collapseWs r with
      | [] => []
      | l => ' ' :: l
    else c :: collapseRest r

end

/-- `_BatteryHtmlReport._normalize_text`: strip tags, decode entities,
normalize whitespace. -/
def normalizeText (l : List Char) : List Char :=
  collapseWs (decodeEntities (stripTags l))

/-- The label literal of each `_SEARCH_PATTERNS` entry. -/
def searchPatternLabel : String → Option String
  | "manufacturer" => some "MANUFACTURER"
  | "chemistry" => some "CHEMISTRY"
  | "design_capacity" => some "DESIGN CAPACITY"
  | "full_capacity" => some "FULL CHARGE CAPACITY"
  | "cycle_count" => some "CYCLE COUNT"
  | _ => none

/-- `_parse_html(query)` in string mode: `"Unknown"` when no report data
(`None` or empty, both falsy), no such pattern, or no match; otherwise the
normalized group-1 capture. -/
def parseHtmlStr (reportData : Option String) (query : String) : String :=
  match reportData with
  | none => "Unknown"
  | some data =>
    if data = "" then "Unknown"
    else
      match searchPatternLabel query with
      | none => "Unknown"
      | some label =>
        match searchField label.toList data.toList with
        | some cap => String.mk (normalizeText cap)
        | none => "Unknown"

/-- `_BatteryHtmlReport.battery_manufacturer`. -/
def batteryManufacturerReport (reportData : Option String) : String :=
  parseHtmlStr reportData "manufacturer"

/-! ## Concrete inputs used by the claim theorems -/

/-- The key set of every `_format_result_data` mapping, in source order. -/
def resultKeys : List String :=
  ["battery_percent", "power_status", "design_capacity",
   "remaining_capacity", "charge_rate", "fast_charge", "manufacturer",
   "technology", "cycle_count", "battery_health", "battery_voltage",
   "battery_temperature", "report_generated"]

/-- Getter outcomes where `battery_percent` raises `TimeoutError` and the
others return normally. -/
def c1Getters : Getters :=
  ⟨GetterOutcome.timeoutExc, GetterOutcome.ok (some true),
   GetterOutcome.ok (some 50000), GetterOutcome.ok (some 40000),
   GetterOutcome.ok (some 12000), GetterOutcome.ok (some false),
   GetterOutcome.ok (some "ACME"), GetterOutcome.ok (some "Li-ion"),
   GetterOutcome.ok (some 120), GetterOutcome.ok (some 90),
   GetterOutcome.ok (some (57/5)), GetterOutcome.ok (some (61/2))⟩

/-- Linux battery whose sysfs `capacity` file reads the out-of-range
value `150`. -/
def c2Battery : LinuxBattery :=
  ⟨true, fun p => if p = "capacity" then RawFile.text "150"
                  else RawFile.absent⟩

/-- Linux battery discharging with `power_now` absent and a
current-times-voltage product below the division granularity. -/
def c4Battery : LinuxBattery :=
  ⟨true, fun p =>
    if p = "status" then RawFile.text "Discharging"
    else if p = "current_now" then RawFile.text "1"
    else if p = "voltage_now" then RawFile.text "999"
    else RawFile.absent⟩

/-- Windows battery state discharging at a positive raw rate with the
`Charging` flag clear. -/
def c5State : SYSTEM_BATTERY_STATE :=
  ⟨false, true, false, true, 50000, 25000, 5000, 0⟩

/-- Windows battery state with `RemainingCapacity / MaxCapacity = 2/3`. -/
def c6State : SYSTEM_BATTERY_STATE :=
  ⟨true, true, true, false, 3, 2, 4000, 0⟩

/-- Windows battery state used to instantiate the amended claim 6. -/
def c6WitnessState : SYSTEM_BATTERY_STATE :=
  ⟨true, true, true, false, 50000, 30000, 4000, 0⟩

/-- A report document containing the claim's synthetic fragment
`MANUFACTURER</span></td><td>Sample&nbsp;Corp</td>`. -/
def c7Report : String :=
  "<html><table><tr><td><span>MANUFACTURER</span></td><td>Sample&nbsp;Corp</td></tr></table></html>"

/-- Linux battery whose `technology` file reads exactly `Unkown`. -/
def c8Battery : LinuxBattery :=
  ⟨true, fun p => if p = "technology" then RawFile.text "Unkown"
                  else RawFile.absent⟩

/-- Linux battery whose `technology` file reads a real chemistry. -/
def c8WitnessBattery : LinuxBattery :=
  ⟨true, fun p => if p = "technology" then RawFile.text "Li-poly"
                  else RawFile.absent⟩

/-- A filesystem whose every file is readable but not UTF-8-decodable. -/
def c10Fs : FS := fun _ => RawFile.invalid

/-- A filesystem with one ordinary whitespace-padded text file. -/
def c10WitnessFs : FS :=
  fun p => if p = "capacity" then RawFile.text " 42 " else RawFile.absent

/-! ## Claim theorems -/

/-- Claim C1 (code bug): every `_format_result_data` mapping (the normal
sequential and parallel paths) carries exactly the thirteen documented
keys, but on the total-failure path — here: sequential mode, empty cache,
non-dev mode, with the `battery_percent` getter raising `TimeoutError` —
`get_result` returns `_get_fallback_result`, whose mapping has no
`battery_percent` key at all: its first key is misspelled
`battery_percentage`.  So the claimed completeness fails exactly on the
fallback path the claim includes. -/
theorem claim1_theorem :
    (∀ (raw : RawData) (today : String),
        (formatResultData raw today).map Prod.fst = resultKeys) ∧
    (∀ (g : Getters) (today : String),
        (getResultParallel g today).map Prod.fst = resultKeys) ∧
    getResult true false false ⟨none, false⟩ c1Getters "2026-10-12" =
      Except.ok (getFallbackResult "2026-10-12") ∧
    (getFallbackResult "2026-10-12").lookup "battery_percent" = none ∧
    (getFallbackResult "2026-10-12").lookup "battery_percentage" =
      some "n/a" := by
  exact ⟨fun raw today => rfl, fun g today => rfl, rfl, rfl, rfl⟩

/-- Claim C2 (code bug): the Windows getter clamps every reading into
[0, 100], but the Linux getter returns the parsed `capacity` value
untouched — a sysfs reading of `150` is returned as `150`, outside the
claimed range. -/
theorem claim2_theorem :
    (∀ state : Option SYSTEM_BATTERY_STATE,
        batteryPercentWindows state ≤ 100) ∧
    batteryPercentLinux c2Battery = Except.ok (some 150) ∧
    ¬ (150 : Int) ≤ 100 := by
  refine ⟨?_, rfl, by norm_num⟩
  intro state
  match state with
  | none => simp [batteryPercentWindows]
  | some s =>
    simp only [batteryPercentWindows]
    split
    · omega
    · exact min_le_right _ _

/-- Claim C3 counterexample: with design capacity 100 and full capacity
110 (both positive, full exceeding design) the computed health is 110,
not within [0, 100] — the code applies no upper clamp, refuting the
claim's bound. -/
theorem claim3_counterexample :
    getBatteryHealthPercentage 100 110 = 110 ∧
    ¬ getBatteryHealthPercentage 100 110 ≤ 100 := by
  constructor <;>
    · unfold getBatteryHealthPercentage pyRound2 roundHalfEven
      norm_num

/-- Claim C3 as amended: with both capacities positive the health equals
`round(full / design * 100, 2)` with no upper clamp, so the result is not
bounded by 100 and can exceed it when full exceeds design (design 100 with
full 110 yields 110); with either capacity non-positive it is 0 and no
division occurs; the Linux energy-ratio health likewise equals the rounded
ratio whenever the design reading is positive, with no positivity check on
the full-energy reading. -/
theorem claim3_theorem (design full : Int)
    (hd : 0 < design) (hf : 0 < full) :
    getBatteryHealthPercentage design full =
      pyRound2 ((full : ℚ) / (design : ℚ) * 100) ∧
    (∀ d f : Int, ¬ (0 < d ∧ 0 < f) → getBatteryHealthPercentage d f = 0) ∧
    (∀ (b : LinuxBattery) (c d : Int),
        readBatteryInt b "energy_full" = Except.ok (some c) →
        readBatteryInt b "energy_full_design" = Except.ok (some d) →
        0 < d →
        batteryHealthLinux b =
          Except.ok (pyRound2 ((c : ℚ) / (d : ℚ) * 100))) := by
  refine ⟨?_, ?_, ?_⟩
  · simp [getBatteryHealthPercentage, hd, hf]
  · intro d f h
    simp [getBatteryHealthPercentage, h]
  · intro b c d h1 h2 hdpos
    simp only [batteryHealthLinux, bind, Except.bind, h1, h2]
    rw [if_pos hdpos]
    rfl

/-- Claim C3 witness: the amended theorem instantiated at design 100 and
full 110. -/
theorem claim3_witness :
    getBatteryHealthPercentage 100 110 =
      pyRound2 ((110 : ℚ) / (100 : ℚ) * 100) :=
  (claim3_theorem 100 110 (by norm_num) (by norm_num)).1

/-- Claim C4 counterexample: with the status file reading `Discharging`,
`power_now` absent, `current_now = 1` and `voltage_now = 999`, the
fallback product path returns exactly 0 — not a negative value — so the
claimed "negative exactly when discharging" biconditional fails. -/
theorem claim4_counterexample :
    chargeRateLinux c4Battery = Except.ok (some 0) ∧
    isDischargingStatus (some "Discharging") = true ∧
    ¬ (0 : Int) < 0 := by
  exact ⟨rfl, rfl, by norm_num⟩

/-- Claim C4 as amended: on the fallback path the returned value is
`signed_power(abs(current) * voltage, status) // 1000` — the micro-unit
product floor-divided by 1000 twice, negated before the second division
when the status reads "discharging" case-insensitively — which is
non-positive (possibly 0) when discharging and non-negative when not. -/
theorem claim4_theorem (b : LinuxBattery) (c v : Int) (st : Option String)
    (hp : readBatteryInt b "power_now" = Except.ok none)
    (hc : readBatteryInt b "current_now" = Except.ok (some c))
    (hv : readBatteryInt b "voltage_now" = Except.ok (some v))
    (hs : readBatteryProperty b "status" = Except.ok st) :
    chargeRateLinux b =
      Except.ok (some
        (Int.fdiv (signedPower ((c.natAbs : Int) * v) st) 1000)) ∧
    (isDischargingStatus st = true →
      Int.fdiv (signedPower ((c.natAbs : Int) * v) st) 1000 ≤ 0) ∧
    (isDischargingStatus st = false →
      0 ≤ Int.fdiv (signedPower ((c.natAbs : Int) * v) st) 1000) := by
  refine ⟨?_, ?_, ?_⟩
  · simp only [chargeRateLinux, bind, Except.bind, hs, hp, hc, hv]
    rfl
  · intro hdis
    have hmw : (0 : Int) ≤ Int.fdiv ((((c.natAbs : Int) * v).natAbs : Int)) 1000 := by
      rw [Int.fdiv_eq_ediv _ (by norm_num)]
      positivity
    simp only [signedPower, hdis, if_pos]
    rw [Int.fdiv_eq_ediv _ (by norm_num)]
    omega
  · intro hdis
    simp only [signedPower, hdis, if_neg, Bool.false_eq_true, if_false]
    rw [Int.fdiv_eq_ediv _ (by norm_num), Int.fdiv_eq_ediv _ (by norm_num)]
    positivity

/-- Claim C4 witness: the amended theorem instantiated at the concrete
discharging battery with a sub-granularity product. -/
theorem claim4_witness :
    chargeRateLinux c4Battery =
      Except.ok (some
        (Int.fdiv (signedPower (((1 : Int).natAbs : Int) * 999)
          (some "Discharging")) 1000)) :=
  (claim4_theorem c4Battery 1 999 (some "Discharging")
    rfl rfl rfl rfl).1

/-- Claim C5 (code bug): for the state with the `Discharging` flag set,
the `Charging` flag clear and a positive raw rate 5000, the claim (and
the method's own docstring) require the negated raw rate -5000, but
`charge_rate` returns 0: the `_is_charging()` guard short-circuits every
discharging state to the idle value. -/
theorem claim5_theorem :
    chargeRateWindows (some c5State) = 0 ∧
    c5State.Discharging = true ∧
    c5State.Charging = false ∧
    0 < c5State.Rate ∧
    (0 : Int) ≠ -c5State.Rate := by
  exact ⟨rfl, rfl, rfl, by decide, by decide⟩

/-- Claim C6 counterexample: with `RemainingCapacity = 2` and
`MaxCapacity = 3` the code truncates `int(66.66…) = 66`, while the
claimed `clamp(round(·), 0, 100)` formula yields 67. -/
theorem claim6_counterexample :
    batteryPercentWindows (some c6State) = 66 ∧
    min (max (roundHalfEven
      ((c6State.RemainingCapacity : ℚ) / (c6State.MaxCapacity : ℚ) * 100))
      0) 100 = 67 := by
  constructor
  · rfl
  · show min (max (roundHalfEven ((2 : ℚ) / (3 : ℚ) * 100)) 0) 100 = 67
    unfold roundHalfEven
    norm_num

/-- Claim C6 as amended: with the battery present and a nonzero
`MaxCapacity`, `battery_percent()` equals
`clamp(trunc(Remaining / Max * 100), 0, 100)` — truncation, not rounding —
and is always at most 100; an absent state, an absent battery or a zero
`MaxCapacity` yield 0 with no division error. -/
theorem claim6_theorem (s : SYSTEM_BATTERY_STATE)
    (hp : s.BatteryPresent = true) (hm : s.MaxCapacity ≠ 0) :
    batteryPercentWindows (some s) =
      min (s.RemainingCapacity * 100 / s.MaxCapacity) 100 ∧
    batteryPercentWindows (some s) ≤ 100 ∧
    (∀ s' : SYSTEM_BATTERY_STATE,
        s'.BatteryPresent = false ∨ s'.MaxCapacity = 0 →
        batteryPercentWindows (some s') = 0) ∧
    batteryPercentWindows none = 0 := by
  have hmain : batteryPercentWindows (some s) =
      min (s.RemainingCapacity * 100 / s.MaxCapacity) 100 := by
    simp only [batteryPercentWindows, hp]
    rw [if_neg (by simp [hm])]
    simp [Nat.max_zero]
  refine ⟨hmain, ?_, ?_, rfl⟩
  · rw [hmain]; exact min_le_right _ _
  · intro s' h
    rcases h with h | h <;> simp [batteryPercentWindows, h]

/-- Claim C6 witness: the amended theorem instantiated at a concrete
present state with `MaxCapacity = 50000`. -/
theorem claim6_witness :
    batteryPercentWindows (some c6WitnessState) =
      min (c6WitnessState.RemainingCapacity * 100 /
        c6WitnessState.MaxCapacity) 100 :=
  (claim6_theorem c6WitnessState rfl (by decide)).1

/-- Claim C7 (confirmed): on a report containing the fragment
`MANUFACTURER</span></td><td>Sample&nbsp;Corp</td>`, the pattern captures
`Sample&nbsp;Corp`, normalization strips tags, decodes the entity and
collapses whitespace, and the manufacturer lookup returns exactly
"Sample Corp". -/
theorem claim7_theorem :
    searchField "MANUFACTURER".toList c7Report.toList =
      some "Sample&nbsp;Corp".toList ∧
    String.mk (normalizeText "Sample&nbsp;Corp".toList) = "Sample Corp" ∧
    batteryManufacturerReport (some c7Report) = "Sample Corp" := by
  exact ⟨rfl, rfl, rfl⟩

/-- Claim C8 counterexample: when the `technology` file reads exactly
`Unkown`, `battery_technology()` returns that raw sysfs string verbatim to
the caller, refuting "the raw technology string is never returned". -/
theorem claim8_counterexample :
    batteryTechnologyLinux c8Battery = Except.ok "Unkown" ∧
    readBatteryProperty c8Battery "technology" =
      Except.ok (some "Unkown") := by
  exact ⟨rfl, rfl⟩

/-- Claim C8 as amended: for every read of the `technology` file other
than `Unkown` — real chemistries and a missing file alike — the getter
returns the constant "Lithium-Ion"; only the content `Unkown` is passed
through verbatim. -/
theorem claim8_theorem (b : LinuxBattery) (r : Option String)
    (h : readBatteryProperty b "technology" = Except.ok r)
    (hne : r ≠ some "Unkown") :
    batteryTechnologyLinux b = Except.ok "Lithium-Ion" := by
  simp only [batteryTechnologyLinux, bind, Except.bind, h]
  rw [if_pos hne]
  rfl

/-- Claim C8 witness: the amended theorem instantiated at a battery whose
`technology` file reads `Li-poly`. -/
theorem claim8_witness :
    batteryTechnologyLinux c8WitnessBattery = Except.ok "Lithium-Ion" :=
  claim8_theorem c8WitnessBattery (some "Li-poly") rfl (by decide)

/-- Claim C9 (confirmed): on both platform classes, every `clear_cache()`
call resets `_cached_result`, `_last_cache_time` and the voltage cache and
then raises `AttributeError` on `self._is_battery_present`, a name defined
nowhere in the class hierarchy (the probe is `_has_battery`); the method
never completes normally. -/
theorem claim9_theorem : ∀ st : CacheState,
    (clearCache windowsBatteryAttrs st).2 =
      some (PyError.attributeError "_is_battery_present") ∧
    (clearCache linuxBatteryAttrs st).2 =
      some (PyError.attributeError "_is_battery_present") ∧
    (clearCache windowsBatteryAttrs st).1.cachedResult = none ∧
    (clearCache windowsBatteryAttrs st).1.lastCacheTime = 0 ∧
    (clearCache windowsBatteryAttrs st).1.voltageCacheSet = false := by
  intro st
  have hw1 : "_estimate_battery_voltage" ∈ windowsBatteryAttrs := by decide
  have hw2 : "_is_battery_present" ∉ windowsBatteryAttrs := by decide
  have hl1 : "_estimate_battery_voltage" ∈ linuxBatteryAttrs := by decide
  have hl2 : "_is_battery_present" ∉ linuxBatteryAttrs := by decide
  refine ⟨?_, ?_, ?_, ?_, ?_⟩ <;>
    simp only [clearCache, if_pos hw1, if_neg hw2, if_pos hl1,
      if_neg hl2] <;>
    split <;> simp_all

/-- Claim C10 counterexample: a readable file whose bytes do not decode as
UTF-8 makes `_read_file` raise `UnicodeDecodeError` — only
`FileNotFoundError`, `PermissionError` and `OSError` are caught — so the
primitive does not "never raise" for every path. -/
theorem claim10_counterexample :
    readFile c10Fs "any_path" = Except.error PyError.unicodeDecodeError := by
  rfl

/-- Claim C10 as amended: on every path whose file is absent/unreadable or
decodes as UTF-8 text, `_read_file` returns either `None` or the non-empty
stripped content — `None` also when the content strips to empty — and
never returns an empty string; only a non-decodable file raises. -/
theorem claim10_theorem (fs : FS) (p : String)
    (h : fs p ≠ RawFile.invalid) :
    (readFile fs p = Except.ok none ∨
      ∃ s, fs p = RawFile.text s ∧ pyStripS s ≠ "" ∧
        readFile fs p = Except.ok (some (pyStripS s))) ∧
    (fs p = RawFile.absent → readFile fs p = Except.ok none) ∧
    (∀ s, fs p = RawFile.text s → pyStripS s = "" →
      readFile fs p = Except.ok none) ∧
    (∀ t, readFile fs p = Except.ok (some t) → t ≠ "") := by
  cases hf : fs p with
  | absent => simp [readFile, hf]
  | invalid => exact absurd hf h
  | text s =>
    by_cases hs : pyStripS s = ""
    · simp [readFile, hf, hs]
    · refine ⟨Or.inr ⟨s, rfl, hs, ?_⟩, by simp, ?_, ?_⟩
      · simp [readFile, hf, hs]
      · intro s' hs' hstrip
        cases hs'
        exact absurd hstrip hs
      · intro t ht
        simp only [readFile, hf] at ht
        rw [if_neg hs] at ht
        simp only [Except.ok.injEq, Option.some.injEq] at ht
        rw [← ht]
        exact hs

/-- Claim C10 witness: the amended theorem instantiated at the filesystem
whose `capacity` file holds padded text. -/
theorem claim10_witness :
    readFile c10WitnessFs "capacity" = Except.ok none ∨
      ∃ s, c10WitnessFs "capacity" = RawFile.text s ∧ pyStripS s ≠ "" ∧
        readFile c10WitnessFs "capacity" = Except.ok (some (pyStripS s)) :=
  (claim10_theorem c10WitnessFs "capacity" (by decide)).1

end BatteryPy
